import Mathlib

/-
Verification development for the motile-plugin repository.

The repository is UI glue around an external tracking-optimization
library.  We shallowly embed the plugin's own code:

* `motile_solver.py` : `solve` and `construct_solver`, the
  parameter-to-solver translation (cost-term wiring, constraints).
* `_motile_widget.py` : the spinbox/checkbox parameter bindings
  (`BaseParamSpinBox`, `EnableBox`), run save/load, layer selection,
  and `solve_with_motile`.
* `widgets/params_editor.py` : `OptionalEditableParam` and the
  `SolverParamsEditor` wiring.
* `widgets/run_editor.py` : `RunEditor.get_run` and layer selection.

External library calls (graph construction, ILP solving, napari) are
modelled as abstract oracles; the plugin's calls to them are recorded
as events so claims about call order and arguments can be stated.
Numeric parameter values are modelled as rationals.  Qt signal/slot
connections are direct (synchronous) calls, which is Qt's default for
same-thread connections; a Qt setter (setChecked, setValue,
setEnabled) emits its change signal only when the stored value
actually changes.
-/

namespace MotilePlugin

/-- Modelled from the spec: the `SolverParams` pydantic model
(`solver_params.py`) is not in src; the spec describes "a small set of
editable numeric fields (thresholds, costs, weights) with optional
(nullable) values representing feature disabled".  The field names and
which fields are optional are fixed by their uses in src:
`construct_solver` and `solve` read every field below, the widget's
enable checkboxes set the eight cost/weight/offset fields to None, and
the three hyperparameter fields are required (the editor raises on a
None required field). -/
structure SolverParams where
  max_edge_distance : ℚ
  max_children : ℕ
  max_parents : ℕ
  appear_cost : Option ℚ
  disappear_cost : Option ℚ
  division_cost : Option ℚ
  merge_cost : Option ℚ
  distance_weight : Option ℚ
  distance_offset : Option ℚ
  iou_weight : Option ℚ
  iou_offset : Option ℚ
deriving DecidableEq, Repr

/-- The node attribute used as frame attribute (`NodeAttr.TIME`). -/
inductive NodeAttr where
  | TIME
deriving DecidableEq, Repr

/-- Edge attributes of the candidate graph (`EdgeAttr.DISTANCE`,
`EdgeAttr.IOU`). -/
inductive EdgeAttr where
  | DISTANCE
  | IOU
deriving DecidableEq, Repr

/-- Cost terms that `construct_solver` can add.  `EdgeSelection`'s
constant is an `Option` because the source passes the optional
`distance_offset` / `iou_offset` field through unchecked. -/
inductive Cost where
  | Appear (constant : ℚ)
  | Disappear (constant : ℚ)
  | Split (constant : ℚ)
  | Merge (constant : ℚ)
  | EdgeSelection (weight : ℚ) (attrib : EdgeAttr) (constant : Option ℚ)
deriving DecidableEq, Repr

/-- Constraints that `construct_solver` adds. -/
inductive MConstraint where
  | MaxChildren (n : ℕ)
  | MaxParents (n : ℕ)
deriving DecidableEq, Repr

/-- `TrackGraph(cand_graph, frame_attribute=NodeAttr.TIME.value)`. -/
structure TrackGraph (G : Type) where
  graph : G
  frame_attribute : NodeAttr

/-- The external `Solver` object, as far as the plugin observes it: a
track graph plus the lists of constraints and costs the plugin added,
in order.  `add_costs` takes the optional keyword name used at the
call site. -/
structure MSolver (G : Type) where
  track_graph : TrackGraph G
  constraints : List MConstraint
  costs : List (Option String × Cost)

/-- `solver.add_constraints(c)` appends a constraint. -/
def MSolver.add_constraints (s : MSolver G) (c : MConstraint) : MSolver G :=
  { s with constraints := s.constraints ++ [c] }

/-- `solver.add_costs(cost, name=nm)` appends a named cost term. -/
def MSolver.add_costs (s : MSolver G) (c : Cost) (nm : Option String) : MSolver G :=
  { s with costs := s.costs ++ [(nm, c)] }

/-- Embedding of `construct_solver(cand_graph, solver_params)` from
`motile_solver.py`, line by line: build the solver on the track graph,
add the `MaxChildren` and `MaxParents` constraints, then add one cost
term for each optional parameter that is not None. -/
def construct_solver (cand_graph : G) (solver_params : SolverParams) : MSolver G :=
  let solver : MSolver G := ⟨⟨cand_graph, NodeAttr.TIME⟩, [], []⟩
  let solver := solver.add_constraints (MConstraint.MaxChildren solver_params.max_children)
  let solver := solver.add_constraints (MConstraint.MaxParents solver_params.max_parents)
  let solver := match solver_params.appear_cost with
    | some c => solver.add_costs (Cost.Appear c) none
    | none => solver
  let solver := match solver_params.disappear_cost with
    | some c => solver.add_costs (Cost.Disappear c) none
    | none => solver
  let solver := match solver_params.division_cost with
    | some c => solver.add_costs (Cost.Split c) none
    | none => solver
  let solver := match solver_params.merge_cost with
    | some c => solver.add_costs (Cost.Merge c) none
    | none => solver
  let solver := match solver_params.distance_weight with
    | some w =>
        solver.add_costs
          (Cost.EdgeSelection w EdgeAttr.DISTANCE solver_params.distance_offset)
          (some "distance")
    | none => solver
  let solver := match solver_params.iou_weight with
    | some w =>
        solver.add_costs
          (Cost.EdgeSelection w EdgeAttr.IOU solver_params.iou_offset)
          (some "iou")
    | none => solver
  solver

/-- The cost terms contributed by one unnamed optional cost parameter. -/
def optCost (o : Option ℚ) (f : ℚ → Cost) : List (Option String × Cost) :=
  match o with
  | some c => [(none, f c)]
  | none => []

/-- The cost terms contributed by one named optional weight parameter. -/
def optNamed (o : Option ℚ) (nm : String) (f : ℚ → Cost) : List (Option String × Cost) :=
  match o with
  | some w => [(some nm, f w)]
  | none => []

/-- The events `solve` triggers against the external library, with the
scalar arguments the plugin passes. -/
inductive SolveStep where
  | getCandidateGraph (max_edge_distance : ℚ) (iou : Bool) (multihypo : Bool)
  | constructSolver
  | solverSolve (verbose : Bool)
  | getSelectedSubgraph
  | graphToNx
deriving DecidableEq, Repr

/-- The external library functions `solve` calls, abstracted: candidate
graph construction (returning a pair whose second component the source
discards), the ILP solve, subgraph extraction and networkx
conversion. -/
structure ExternalLib (Seg G CS Sol NX : Type) where
  get_candidate_graph : Seg → ℚ → Bool → Bool → G × CS
  solver_solve : MSolver G → Bool → Sol
  get_selected_subgraph : MSolver G → Sol → G
  graph_to_nx : G → NX

/-- Embedding of `solve(solver_params, segmentation)` from
`motile_solver.py`.  Returns the networkx result together with the
ordered list of external-library steps the body performs. -/
def solve (ext : ExternalLib Seg G CS Sol NX) (solver_params : SolverParams)
    (segmentation : Seg) : NX × List SolveStep :=
  let cg := ext.get_candidate_graph segmentation solver_params.max_edge_distance
    solver_params.iou_weight.isSome false
  let cand_graph := cg.1
  let solver := construct_solver cand_graph solver_params
  let solution := ext.solver_solve solver true
  let solution_graph := ext.get_selected_subgraph solver solution
  let solution_nx_graph := ext.graph_to_nx solution_graph
  (solution_nx_graph,
    [SolveStep.getCandidateGraph solver_params.max_edge_distance
       solver_params.iou_weight.isSome false,
     SolveStep.constructSolver,
     SolveStep.solverSolve true,
     SolveStep.getSelectedSubgraph,
     SolveStep.graphToNx])

/-- A numpy array, as far as the plugin observes it: a shape and an
abstract payload.  The plugin only branches on the shape. -/
structure NpArray (α : Type) where
  shape : List ℕ
  val : α
deriving DecidableEq, Repr

/-- Embedding of `np.expand_dims(a, axis)`: insert a new axis of
extent 1 at the given position; the payload is unchanged. -/
def expand_dims (a : NpArray α) (axis : ℕ) : NpArray α :=
  ⟨a.shape.take axis ++ 1 :: a.shape.drop axis, a.val⟩

/-- A viewer layer: a name, whether it is a Labels layer, and its
data. -/
structure Layer (α : Type) where
  layer_name : String
  isLabels : Bool
  data : NpArray α
deriving DecidableEq, Repr

/-- Embedding of the selection-box population loop shared by
`MotileWidget._ui_select_labels_layer` and
`RunEditor.update_labels_layers`: add the name of every Labels layer;
if none was added, add the single entry "None". -/
def select_box_items (layers : List (Layer α)) : List String :=
  let items := (layers.filter (fun l => l.isLabels)).map (fun l => l.layer_name)
  if items.isEmpty then ["None"] else items

/-- Embedding of `get_labels_layer` (both `MotileWidget` and
`RunEditor` versions): if the current selection text is "None" return
None, otherwise return the layer with the selected name.  Name lookup
(`viewer.layers[curr_text]`) is modelled as a search over the layer
list; in the source a missing name would raise, which cannot occur for
a name the box was populated with. -/
def get_labels_layer (layers : List (Layer α)) (curr_text : String) : Option (Layer α) :=
  if curr_text = "None" then none
  else layers.find? (fun l => l.layer_name = curr_text)

/-- Embedding of the guard of `MotileWidget._generate_tracks`: if
`get_labels_layer` returns None the method returns at once and no
solve is started; otherwise a solve on the layer's data and the
current parameters is started. -/
def generate_tracks (layers : List (Layer α)) (curr_text : String)
    (solver_params : SolverParams) : Option (NpArray α × SolverParams) :=
  match get_labels_layer layers curr_text with
  | none => none
  | some labels_layer => some (labels_layer.data, solver_params)

/-- Modelled from the spec: the `MotileRun` class
(`backend/motile_run.py`) is not in src; the spec describes a run as a
bundle of "a name, parameter snapshot, and segmentation input".  The
parameter snapshot is a reference into the object heap below, so that
sharing versus copying is observable. -/
structure MotileRun (α : Type) where
  run_name : String
  solver_params_ref : ℕ
  input_segmentation : NpArray α
deriving DecidableEq, Repr

/-- Default parameter record, used only as the out-of-range fallback
of heap reads. -/
def SolverParams.zeroed : SolverParams :=
  ⟨0, 0, 0, none, none, none, none, none, none, none, none⟩

/-- A heap of `SolverParams` objects, making Python reference semantics
explicit: a cell index is an object identity. -/
abbrev ParamsHeap : Type := List SolverParams

/-- Read the object a reference points to. -/
def ParamsHeap.read (h : ParamsHeap) (r : ℕ) : SolverParams :=
  List.getD h r SolverParams.zeroed

/-- Mutate the object a reference points to (in-place attribute
update on the referenced `SolverParams`). -/
def ParamsHeap.write (h : ParamsHeap) (r : ℕ) (p : SolverParams) : ParamsHeap :=
  List.set h r p

/-- Embedding of `RunEditor.get_run`: if no labels layer is selected,
warn and return None; otherwise expand the layer data with a new axis
at position 1, take a copy of the editor's current parameters
(`.copy()` allocates a fresh object with the same value), and return
the run.  The editor's parameter object is the heap cell
`params_ref`; the returned pair is the extended heap and the run. -/
def RunEditor.get_run (h : ParamsHeap) (layers : List (Layer α))
    (curr_text : String) (run_nm : String) (params_ref : ℕ) :
    Option (ParamsHeap × MotileRun α) :=
  match get_labels_layer layers curr_text with
  | none => none
  | some input_layer =>
    let input_seg := expand_dims input_layer.data 1
    let copied := h.read params_ref
    some (h ++ [copied], ⟨run_nm, h.length, input_seg⟩)

/-- Modelled from the spec: the `Run` class (`run.py`) is not in src;
the spec describes it as bundling a name and a parameter snapshot
"with save/load to a directory".  `MotileWidget._list_runs` and
`_load_run` fix that the directory is named after the run. -/
structure Run where
  run_name : String
  params : SolverParams
deriving DecidableEq, Repr

/-- Modelled from the spec: `run.save(base_path)` writes the run to
the directory `base_path / run_name`; the base path is a table from
directory name to saved run, and saving overwrites by shadowing. -/
def Run.save (fs : List (String × Run)) (run : Run) : List (String × Run) :=
  (run.run_name, run) :: fs

/-- Modelled from the spec: `Run.load(path)` reads the run saved in
that directory; a missing directory yields no run (the source would
raise). -/
def Run.load (fs : List (String × Run)) (dir : String) : Option Run :=
  (fs.find? (fun e => e.1 = dir)).map (fun e => e.2)

/-- The fields of `MotileWidget` that run saving and loading touch:
the run-name text field, the current parameter model, and the text
selected in the load combo box. -/
structure MotileWidgetState where
  run_name_field : String
  solver_params : SolverParams
  load_selection : String
deriving DecidableEq, Repr

/-- Embedding of `MotileWidget._save_run`: build a `Run` from the name
field and the current parameters and save it under the base path. -/
def motile_save_run (w : MotileWidgetState) (fs : List (String × Run)) :
    List (String × Run) :=
  Run.save fs ⟨w.run_name_field, w.solver_params⟩

/-- Embedding of `MotileWidget._load_run`: read the selected directory
name; if it is "None" return at once (no state change, no signal);
otherwise load the run, put its name into the name field, replace the
widget's parameter model, and emit the update signal with the loaded
parameters.  The result is None when nothing was restored, and
otherwise the new widget state together with the parameters carried by
the emitted signal. -/
def motile_load_run (w : MotileWidgetState) (fs : List (String × Run)) :
    Option (MotileWidgetState × SolverParams) :=
  let run_dir := w.load_selection
  if run_dir = "None" then none
  else
    match Run.load fs run_dir with
    | none => none
    | some run =>
      some ({ w with run_name_field := run.run_name, solver_params := run.params },
        run.params)

/-- The visible state of one optional-parameter row in
`params_editor.py`: the label checkbox, whether the value widget is
enabled, and the number it displays. -/
structure OptParamControl where
  checked : Bool
  enabled : Bool
  displayed : ℚ
deriving DecidableEq, Repr

/-- One optional-parameter binding in `params_editor.py`: the control
together with the bound `SolverParams` field, kept in sync by the
`valueChanged` connection made in `SolverParamsEditor._params_group`. -/
structure OptBinding where
  control : OptParamControl
  param : Option ℚ
deriving DecidableEq, Repr

/-- Embedding of `OptionalEditableParam.toggle_enable(checked)`: enable
or disable the value widget, then emit `valueChanged` with the current
value when checked and with None when unchecked; the connected slot
writes that value to the bound parameter. -/
def toggle_enable (s : OptBinding) (checked : Bool) : OptBinding :=
  let c := { s.control with enabled := checked }
  let value : Option ℚ := if checked then some c.displayed else none
  { control := c, param := value }

/-- A user click setting the label checkbox: the checkbox state
changes and Qt fires `toggled`, which is connected to
`toggle_enable`. -/
def user_set_checked (s : OptBinding) (b : Bool) : OptBinding :=
  toggle_enable { s with control := { s.control with checked := b } } b

/-- Modelled from the spec for the value widget's internals
(`param_values.py` is not in src): editing the numeric control shows
the edited number and emits `valueChanged` with it, which the
connection in `_params_group` writes to the bound parameter. -/
def edit_value (s : OptBinding) (v : ℚ) : OptBinding :=
  { control := { s.control with displayed := v }, param := some v }

/-- Embedding of `OptionalEditableParam.update_from_params`: on None,
uncheck the label (firing `toggled` when it was checked) and disable
the value widget; otherwise check the label (firing `toggled` when it
was unchecked), enable the value widget and set its displayed value,
the value widget emitting `valueChanged` with the new value. -/
def opt_update_from_params (s : OptBinding) (pv : Option ℚ) : OptBinding :=
  match pv with
  | none =>
    let s1 :=
      if s.control.checked then
        toggle_enable { s with control := { s.control with checked := false } } false
      else s
    { s1 with control := { s1.control with enabled := false } }
  | some v =>
    let s1 :=
      if s.control.checked then s
      else toggle_enable { s with control := { s.control with checked := true } } true
    let s2 := { s1 with control := { s1.control with enabled := true } }
    { control := { s2.control with displayed := v }, param := some v }

/-- The state of one spinbox binding in `_motile_widget.py`: the
`EnableBox` checkbox, the spinbox's enabled flag and displayed value,
and the bound `SolverParams` field. -/
structure SpinBinding where
  checked : Bool
  enabled : Bool
  displayed : ℚ
  param : Option ℚ
deriving DecidableEq, Repr

/-- Embedding of `widget.setEnabled(b)` on a `BaseParamSpinBox`: when
the enabled flag changes, `changeEvent` fires and emits
`enable_signal(value)` or `disable_signal`, whose connections set the
bound parameter to the spinbox value or to None. -/
def spin_set_enabled (s : SpinBinding) (b : Bool) : SpinBinding :=
  if s.enabled = b then s
  else
    let s1 := { s with enabled := b }
    if b then { s1 with param := some s1.displayed }
    else { s1 with param := none }

/-- Embedding of setting the `EnableBox` check state (a user click or
`_disable`): when the state changes, `stateChanged` fires `_on_toggle`,
which enables or disables the connected spinbox. -/
def enable_box_set_checked (s : SpinBinding) (b : Bool) : SpinBinding :=
  if s.checked = b then s
  else spin_set_enabled { s with checked := b } b

/-- A user edit of the spinbox: the new value is shown and
`valueChanged` fires, whose connection sets the bound parameter. -/
def spin_edit_value (s : SpinBinding) (v : ℚ) : SpinBinding :=
  { s with displayed := v, param := some v }

/-- Embedding of `BaseParamSpinBox.update_value(param_name, params)`:
on None, emit `update_none_signal`, which the `EnableBox` answers with
`_disable` (`setChecked(False)`), and return; otherwise
`setValue(value)`, which emits `valueChanged` when the shown value
changes. -/
def spin_update_value (s : SpinBinding) (pv : Option ℚ) : SpinBinding :=
  match pv with
  | none => enable_box_set_checked s false
  | some v =>
    if s.displayed = v then s
    else { s with displayed := v, param := some v }

/-- The calls `MotileWidget.solve_with_motile` makes after choosing
position keys, with the arguments that matter to the claims. -/
inductive MotileEvent where
  | madeSolver
  | invokedSolver (position_keys : List String)
  | relabeledSegmentation
  | madeTracksLayer
deriving DecidableEq, Repr

/-- The external functions `solve_with_motile` calls, abstracted: the
solver (constructed from the parameters, then run on the segmentation
with position keys), `relabel_segmentation` and
`to_napari_tracks_layer`. -/
structure WidgetExt (α NxG Tracks : Type) where
  motile_solve : SolverParams → NpArray α → List String → NxG
  relabel_segmentation : NxG → NpArray α → NpArray α
  to_napari_tracks_layer : NxG → List String → Tracks

/-- Embedding of `MotileWidget.solve_with_motile(segmentation,
solver_params)`: position keys are assigned only for 3- and
4-dimensional segmentations; the solver object is constructed next,
and then the solver call evaluates `position_keys`, which for any
other dimensionality is unbound and raises before the solver is
invoked.  The result is the outcome (or the error) together with the
ordered list of events that happened. -/
def solve_with_motile (ext : WidgetExt α NxG Tracks) (segmentation : NpArray α)
    (solver_params : SolverParams) :
    Except String (NxG × NpArray α × Tracks × SolverParams) × List MotileEvent :=
  let pk : Option (List String) :=
    if segmentation.shape.length = 3 then some ["y", "x"]
    else if segmentation.shape.length = 4 then some ["z", "y", "x"]
    else none
  match pk with
  | none =>
    (Except.error "UnboundLocalError: position_keys", [MotileEvent.madeSolver])
  | some position_keys =>
    let g := ext.motile_solve solver_params segmentation position_keys
    let relabeled := ext.relabel_segmentation g segmentation
    let tracks := ext.to_napari_tracks_layer g position_keys
    (Except.ok (g, relabeled, tracks, solver_params),
      [MotileEvent.madeSolver, MotileEvent.invokedSolver position_keys,
       MotileEvent.relabeledSegmentation, MotileEvent.madeTracksLayer])

/-- Whether a cost term carries a None argument (only the
`EdgeSelection` constant can, since the offsets are passed through
unchecked). -/
def costHasNoneArg : Cost → Bool
  | Cost.EdgeSelection _ _ none => true
  | _ => false

/-- A trivial instantiation of the external library, for concrete
evaluations. -/
def unitLib : ExternalLib Unit Unit Unit Unit Unit :=
  ⟨fun _ _ _ _ => ((), ()), fun _ _ => (), fun _ _ => (), fun _ => ()⟩

/-- A concrete parameter record with only the iou cost enabled. -/
def paramsIou : SolverParams :=
  ⟨1, 2, 1, none, none, none, none, none, none, some 1, some 0⟩

/-- A concrete parameter record where the distance weight is set but
the distance offset is None. -/
def paramsOffsetNone : SolverParams :=
  ⟨1, 2, 1, none, none, none, none, some 1, none, none, none⟩

theorem construct_solver_costs_eq (g : G) (p : SolverParams) :
    (construct_solver g p).costs =
      optCost p.appear_cost Cost.Appear ++
      optCost p.disappear_cost Cost.Disappear ++
      optCost p.division_cost Cost.Split ++
      optCost p.merge_cost Cost.Merge ++
      optNamed p.distance_weight "distance"
        (fun w => Cost.EdgeSelection w EdgeAttr.DISTANCE p.distance_offset) ++
      optNamed p.iou_weight "iou"
        (fun w => Cost.EdgeSelection w EdgeAttr.IOU p.iou_offset) := by
  obtain ⟨med, mc, mp, ap, dis, dv, mer, dw, doff, iw, ioff⟩ := p
  cases ap <;> cases dis <;> cases dv <;> cases mer <;> cases dw <;> cases iw <;>
    simp [construct_solver, MSolver.add_costs, MSolver.add_constraints, optCost, optNamed]

theorem mem_optCost {x : Option String × Cost} {o : Option ℚ} {f : ℚ → Cost} :
    x ∈ optCost o f ↔ ∃ v, o = some v ∧ x = (none, f v) := by
  cases o <;> simp [optCost]

theorem mem_optNamed {x : Option String × Cost} {o : Option ℚ} {nm : String}
    {f : ℚ → Cost} :
    x ∈ optNamed o nm f ↔ ∃ v, o = some v ∧ x = (some nm, f v) := by
  cases o <;> simp [optNamed]

/-- C1: `construct_solver` adds a cost term exactly for the optional
parameters that are set: an Appear cost iff `appear_cost` is set, a
Disappear cost iff `disappear_cost` is set, a Split cost with constant
`division_cost` iff `division_cost` is set, a Merge cost with constant
`merge_cost` iff `merge_cost` is set, an EdgeSelection cost named
"distance" with weight `distance_weight`, attribute DISTANCE and
constant `distance_offset` iff `distance_weight` is set, and an
EdgeSelection cost named "iou" with weight `iou_weight`, attribute IOU
and constant `iou_offset` iff `iou_weight` is set; a None parameter
contributes no cost term. -/
theorem C1_cost_terms_iff (g : G) (p : SolverParams) (a w : ℚ) (c : Option ℚ) :
    ((none, Cost.Appear a) ∈ (construct_solver g p).costs ↔ p.appear_cost = some a)
  ∧ ((none, Cost.Disappear a) ∈ (construct_solver g p).costs ↔ p.disappear_cost = some a)
  ∧ ((none, Cost.Split a) ∈ (construct_solver g p).costs ↔ p.division_cost = some a)
  ∧ ((none, Cost.Merge a) ∈ (construct_solver g p).costs ↔ p.merge_cost = some a)
  ∧ ((some "distance", Cost.EdgeSelection w EdgeAttr.DISTANCE c) ∈
        (construct_solver g p).costs
      ↔ p.distance_weight = some w ∧ c = p.distance_offset)
  ∧ ((some "iou", Cost.EdgeSelection w EdgeAttr.IOU c) ∈ (construct_solver g p).costs
      ↔ p.iou_weight = some w ∧ c = p.iou_offset) := by
  simp only [construct_solver_costs_eq, List.mem_append, mem_optCost, mem_optNamed,
    Prod.mk.injEq]
  refine ⟨?_, ?_, ?_, ?_, ?_, ?_⟩ <;> simp <;> aesop

/-- C8: `construct_solver` unconditionally adds the
`MaxChildren(max_children)` and `MaxParents(max_parents)` constraints,
and nothing else, whatever the optional cost parameters are. -/
theorem C8_constraints_always_added (g : G) (p : SolverParams) :
    (construct_solver g p).constraints =
      [MConstraint.MaxChildren p.max_children,
       MConstraint.MaxParents p.max_parents] := by
  obtain ⟨med, mc, mp, ap, dis, dv, mer, dw, doff, iw, ioff⟩ := p
  cases ap <;> cases dis <;> cases dv <;> cases mer <;> cases dw <;> cases iw <;> rfl

/-- C2: `solve` builds the candidate graph, constructs the solver from
it and the parameters, invokes the external solver, extracts the
selected subgraph, converts it to networkx and returns that graph; the
recorded step list shows these external calls happen in exactly this
order and nothing else. -/
theorem C2_solve_pipeline (ext : ExternalLib Seg G CS Sol NX)
    (p : SolverParams) (seg : Seg) :
    solve ext p seg =
      (ext.graph_to_nx
        (ext.get_selected_subgraph
          (construct_solver
            (ext.get_candidate_graph seg p.max_edge_distance p.iou_weight.isSome false).1 p)
          (ext.solver_solve
            (construct_solver
              (ext.get_candidate_graph seg p.max_edge_distance p.iou_weight.isSome false).1 p)
            true)),
       [SolveStep.getCandidateGraph p.max_edge_distance p.iou_weight.isSome false,
        SolveStep.constructSolver,
        SolveStep.solverSolve true,
        SolveStep.getSelectedSubgraph,
        SolveStep.graphToNx]) := rfl

/-- C3: `solve` passes `max_edge_distance` as the distance threshold to
candidate-graph construction, requests IOU edge attributes exactly when
`iou_weight` is not None, and always passes multihypo false; an "iou"
cost term in the solver it constructs forces the IOU flag to have been
true. -/
theorem C3_candidate_graph_args (ext : ExternalLib Seg G CS Sol NX)
    (p : SolverParams) (seg : Seg) :
    ((solve ext p seg).2.head? =
      some (SolveStep.getCandidateGraph p.max_edge_distance p.iou_weight.isSome false))
  ∧ (p.iou_weight.isSome = true ↔ p.iou_weight ≠ none)
  ∧ (∀ w c,
      (some "iou", Cost.EdgeSelection w EdgeAttr.IOU c) ∈
        (construct_solver
          (ext.get_candidate_graph seg p.max_edge_distance p.iou_weight.isSome false).1
          p).costs →
      p.iou_weight.isSome = true) := by
  refine ⟨rfl, Option.isSome_iff_ne_none, ?_⟩
  intro w c hmem
  rw [construct_solver_costs_eq] at hmem
  simp only [List.mem_append, mem_optCost, mem_optNamed, Prod.mk.injEq] at hmem
  rcases hmem with ((((((⟨v, _, hv, _⟩ | ⟨v, _, hv, _⟩) | ⟨v, _, hv, _⟩) | ⟨v, _, hv, _⟩)
    | ⟨v, _, hv, _⟩) | ⟨v, hv, _, _⟩)) <;> simp_all

/-- C3 witness: with the iou weight set, the "iou" cost term is in the
constructed solver and the theorem yields that the IOU flag was
requested. -/
theorem C3_candidate_graph_args_witness : paramsIou.iou_weight.isSome = true :=
  (C3_candidate_graph_args unitLib paramsIou ()).2.2 1 (some 0) (by decide)

/-- C7 counterexample: with `distance_weight` set and `distance_offset`
None, `construct_solver` puts a cost term carrying a None argument
into the solver (the None offset is passed as the EdgeSelection
constant), so it is not the case that no None value is ever passed to
a cost constructor. -/
theorem C7_offset_none_passed :
    List.any (construct_solver () paramsOffsetNone).costs
      (fun nc => costHasNoneArg nc.2) = true := by decide

/-- C7 amended: `construct_solver` is total (it returns a solver for
every parameter combination, no branch dereferencing a None), and each
guard keeps its own None parameter away from the cost constructors;
provided additionally that `distance_offset` is set whenever
`distance_weight` is, and `iou_offset` whenever `iou_weight` is, no
None value at all reaches a cost constructor.  Without that proviso
the None offset is passed as the EdgeSelection constant
(`C7_offset_none_passed`). -/
theorem C7_no_none_when_offsets_set (g : G) (p : SolverParams)
    (hd : p.distance_weight.isSome = true → p.distance_offset.isSome = true)
    (hi : p.iou_weight.isSome = true → p.iou_offset.isSome = true) :
    ∀ nc ∈ (construct_solver g p).costs, costHasNoneArg nc.2 = false := by
  intro nc hmem
  rw [construct_solver_costs_eq] at hmem
  simp only [List.mem_append, mem_optCost, mem_optNamed] at hmem
  rcases hmem with ((((((⟨v, hv, hx⟩ | ⟨v, hv, hx⟩) | ⟨v, hv, hx⟩) | ⟨v, hv, hx⟩)
    | ⟨v, hv, hx⟩) | ⟨v, hv, hx⟩))
  · simp [hx, costHasNoneArg]
  · simp [hx, costHasNoneArg]
  · simp [hx, costHasNoneArg]
  · simp [hx, costHasNoneArg]
  · have hoff := hd (by simp [hv])
    rcases Option.isSome_iff_exists.mp hoff with ⟨x, hx2⟩
    simp [hx, costHasNoneArg, hx2]
  · have hoff := hi (by simp [hv])
    rcases Option.isSome_iff_exists.mp hoff with ⟨x, hx2⟩
    simp [hx, costHasNoneArg, hx2]

/-- C7 witness: with the iou weight and offset both set, the iou cost
term the solver holds carries no None argument. -/
theorem C7_no_none_when_offsets_set_witness :
    costHasNoneArg (Cost.EdgeSelection 1 EdgeAttr.IOU (some 0)) = false :=
  C7_no_none_when_offsets_set () paramsIou (by decide) (by decide)
    (some "iou", Cost.EdgeSelection 1 EdgeAttr.IOU (some 0)) (by decide)

/-- A widget state whose run name is the sentinel string.  Its
parameters differ from the zeroed record, so a successful load would
be observable. -/
def wNone : MotileWidgetState := ⟨"None", paramsIou, "None"⟩

/-- C5 counterexample: a run named "None" is persisted by `_save_run`
(the saved table maps the directory "None" to it), yet `_load_run` on
that selection returns at once: nothing is restored and no update
signal is emitted, so the round trip fails for this run name. -/
theorem C5_none_name_not_loaded :
    motile_load_run wNone (motile_save_run wNone []) = none
  ∧ Run.load (motile_save_run wNone []) "None" = some ⟨"None", paramsIou⟩ := by
  constructor <;> rfl

/-- C5 amended: for every run name other than the sentinel "None",
saving a run and then loading it (with that name selected) restores
the run name into the name field and the saved parameters into the
widget's parameter model, and emits the update signal carrying the
loaded parameters. -/
theorem C5_save_load_roundtrip (w1 w2 : MotileWidgetState) (fs : List (String × Run))
    (hsel : w2.load_selection = w1.run_name_field)
    (hn : w1.run_name_field ≠ "None") :
    motile_load_run w2 (motile_save_run w1 fs) =
      some ({ w2 with run_name_field := w1.run_name_field,
                      solver_params := w1.solver_params },
        w1.solver_params) := by
  simp [motile_load_run, motile_save_run, Run.save, Run.load, hsel, hn]

/-- C5 witness: saving the run "tracks" with the iou parameters from
one widget state and loading it from another restores the name and
the parameters and emits them. -/
theorem C5_save_load_roundtrip_witness :
    motile_load_run ⟨"old", SolverParams.zeroed, "tracks"⟩
        (motile_save_run ⟨"tracks", paramsIou, "unused"⟩ []) =
      some (⟨"tracks", paramsIou, "tracks"⟩, paramsIou) :=
  C5_save_load_roundtrip ⟨"tracks", paramsIou, "unused"⟩
    ⟨"old", SolverParams.zeroed, "tracks"⟩ [] (by decide) (by decide)

/-- C6: `RunEditor.get_run` returns a run whose name is the name
field, whose input segmentation is the selected layer's data with a
new axis of extent 1 inserted at position 1, and whose parameters are
a copy of the editor's current parameters: the run references a fresh
object holding the editor's current value, so writing to the editor's
parameter object afterwards leaves the run's parameters unchanged. -/
theorem C6_get_run_snapshot (h : ParamsHeap) (layers : List (Layer α))
    (curr_text run_nm : String) (params_ref : ℕ) (l : Layer α)
    (hl : get_labels_layer layers curr_text = some l)
    (hr : params_ref < h.length) :
    ∃ h2 run, RunEditor.get_run h layers curr_text run_nm params_ref = some (h2, run)
      ∧ run.run_name = run_nm
      ∧ run.input_segmentation.shape = l.data.shape.take 1 ++ 1 :: l.data.shape.drop 1
      ∧ run.input_segmentation.val = l.data.val
      ∧ run.solver_params_ref ≠ params_ref
      ∧ h2.read run.solver_params_ref = h.read params_ref
      ∧ ∀ p2, (h2.write params_ref p2).read run.solver_params_ref = h.read params_ref := by
  refine ⟨h ++ [h.read params_ref], ⟨run_nm, h.length, expand_dims l.data 1⟩, ?_, rfl,
    rfl, rfl, ?_, ?_, ?_⟩
  · simp [RunEditor.get_run, hl]
  · show h.length ≠ params_ref
    omega
  · simp [ParamsHeap.read]
  · intro p2
    have hlen : params_ref < (h ++ [h.read params_ref]).length := by
      simp
      omega
    simp [ParamsHeap.read, ParamsHeap.write, List.getD_eq_getElem?_getD,
      List.getElem?_set_ne (by omega : params_ref ≠ h.length)]

/-- C6 witness: on a one-layer viewer with a one-cell heap, `get_run`
returns the snapshot run with the expanded shape and a fresh
parameter object. -/
theorem C6_get_run_snapshot_witness :
    ∃ h2 run,
      RunEditor.get_run [SolverParams.zeroed]
          [⟨"seg", true, (⟨[2, 3, 4], ()⟩ : NpArray Unit)⟩] "seg" "tracks" 0 =
        some (h2, run)
      ∧ run.run_name = "tracks"
      ∧ run.input_segmentation.shape = [2, 3, 4].take 1 ++ 1 :: [2, 3, 4].drop 1
      ∧ run.input_segmentation.val = ()
      ∧ run.solver_params_ref ≠ 0
      ∧ h2.read run.solver_params_ref = ParamsHeap.read [SolverParams.zeroed] 0
      ∧ ∀ p2, (h2.write 0 p2).read run.solver_params_ref =
          ParamsHeap.read [SolverParams.zeroed] 0 :=
  C6_get_run_snapshot [SolverParams.zeroed]
    [⟨"seg", true, (⟨[2, 3, 4], ()⟩ : NpArray Unit)⟩] "seg" "tracks" 0
    ⟨"seg", true, ⟨[2, 3, 4], ()⟩⟩ (by decide) (by decide)

/-- C9: the layer selectors use "None" as a sentinel: with no Labels
layers the selection box holds the single entry "None";
`get_labels_layer` returns None on the sentinel text and otherwise
returns the layer found under the selected name; and when it returns
None, `_generate_tracks` starts no solve and `get_run` creates no
run. -/
theorem C9_none_sentinel (layers : List (Layer α)) (curr_text : String)
    (p : SolverParams) (h : ParamsHeap) (run_nm : String) (params_ref : ℕ) :
    (layers.filter (fun l => l.isLabels) = [] → select_box_items layers = ["None"])
  ∧ (get_labels_layer layers "None" = none)
  ∧ (curr_text ≠ "None" →
      get_labels_layer layers curr_text = layers.find? (fun l => l.layer_name = curr_text))
  ∧ (get_labels_layer layers curr_text = none → generate_tracks layers curr_text p = none)
  ∧ (get_labels_layer layers curr_text = none →
      RunEditor.get_run h layers curr_text run_nm params_ref = none) := by
  refine ⟨?_, ?_, ?_, ?_, ?_⟩
  · intro hempty
    simp [select_box_items, hempty]
  · simp [get_labels_layer]
  · intro hne
    simp [get_labels_layer, hne]
  · intro hnone
    simp [generate_tracks, hnone]
  · intro hnone
    simp [RunEditor.get_run, hnone]

/-- C9 witness: on an empty layer list the box holds only "None", and
with the sentinel selected neither a solve nor a run is created. -/
theorem C9_none_sentinel_witness :
    select_box_items ([] : List (Layer Unit)) = ["None"]
  ∧ generate_tracks ([] : List (Layer Unit)) "None" SolverParams.zeroed = none
  ∧ RunEditor.get_run [] ([] : List (Layer Unit)) "None" "tracks" 0 = none := by
  have hthm := C9_none_sentinel ([] : List (Layer Unit)) "None" SolverParams.zeroed [] "tracks" 0
  exact ⟨hthm.1 (by decide), hthm.2.2.2.1 (by decide), hthm.2.2.2.2 (by decide)⟩

/-- A trivial instantiation of the externals `solve_with_motile`
calls, for concrete evaluations. -/
def unitWidgetExt : WidgetExt Unit Unit Unit :=
  ⟨fun _ _ _ => (), fun _ s => s, fun _ _ => ()⟩

/-- A concrete 3-dimensional segmentation. -/
def segDim3 : NpArray Unit := ⟨[5, 4, 3], ()⟩

/-- A concrete 5-dimensional segmentation. -/
def segDim5 : NpArray Unit := ⟨[2, 2, 2, 2, 2], ()⟩

/-- C10: `solve_with_motile` chooses position keys y, x for a
3-dimensional segmentation and z, y, x for a 4-dimensional one, and
invokes the solver with them; for any other dimensionality the
position keys are never assigned and the call fails before the solver
is invoked (only the solver construction event happens). -/
theorem C10_position_keys (ext : WidgetExt α NxG Tracks) (seg : NpArray α)
    (p : SolverParams) :
    (seg.shape.length = 3 →
      (solve_with_motile ext seg p).2 =
        [MotileEvent.madeSolver, MotileEvent.invokedSolver ["y", "x"],
         MotileEvent.relabeledSegmentation, MotileEvent.madeTracksLayer])
  ∧ (seg.shape.length = 4 →
      (solve_with_motile ext seg p).2 =
        [MotileEvent.madeSolver, MotileEvent.invokedSolver ["z", "y", "x"],
         MotileEvent.relabeledSegmentation, MotileEvent.madeTracksLayer])
  ∧ (seg.shape.length ≠ 3 → seg.shape.length ≠ 4 →
      solve_with_motile ext seg p =
        (Except.error "UnboundLocalError: position_keys", [MotileEvent.madeSolver])) := by
  refine ⟨?_, ?_, ?_⟩
  · intro h3
    simp [solve_with_motile, h3]
  · intro h4
    simp [solve_with_motile, h4]
  · intro h3 h4
    simp [solve_with_motile, h3, h4]

/-- C10 witness: a 3-dimensional segmentation is solved with keys
y, x; a 5-dimensional one fails with the solver never invoked. -/
theorem C10_position_keys_witness :
    (solve_with_motile unitWidgetExt segDim3 SolverParams.zeroed).2 =
      [MotileEvent.madeSolver, MotileEvent.invokedSolver ["y", "x"],
       MotileEvent.relabeledSegmentation, MotileEvent.madeTracksLayer]
  ∧ solve_with_motile unitWidgetExt segDim5 SolverParams.zeroed =
      (Except.error "UnboundLocalError: position_keys", [MotileEvent.madeSolver]) :=
  ⟨(C10_position_keys unitWidgetExt segDim3 SolverParams.zeroed).1 (by decide),
   (C10_position_keys unitWidgetExt segDim5 SolverParams.zeroed).2.2 (by decide) (by decide)⟩

/-- A spinbox binding whose enable box is unchecked (its parameter is
None), about to receive a non-None update. -/
def spinStale : SpinBinding := ⟨false, false, 5, none⟩

/-- C4 counterexample: in the `_motile_widget.py` binding, updating
the editor from a parameter value of 3 (not None) sets the bound
parameter but leaves the enable control unchecked, so it is not the
case that after an update the enable control is checked exactly when
the parameter value is not None. -/
theorem C4_enable_box_not_rechecked :
    (spin_update_value spinStale (some 3)).checked = false
  ∧ (spin_update_value spinStale (some 3)).param = some 3 := by
  constructor <;> rfl

/-- C4 amended: the controls are bound to the parameter model in both
directions: unchecking an enable control sets the parameter to None
and checking it sets the parameter to the control's current numeric
value; editing the numeric control sets the parameter to the edited
value; and updating from a `SolverParams` value sets the control's
displayed value from a non-None parameter.  In the
`OptionalEditableParam` editor the enable checkbox also ends checked
exactly when the value is not None; in the `_motile_widget` spinbox
binding a None value unchecks the enable box, but a non-None value
never changes the box, so it is not re-checked
(`C4_enable_box_not_rechecked`). -/
theorem C4_bindings (s : OptBinding) (t : SpinBinding) (b : Bool) (v : ℚ)
    (pv : Option ℚ) (ht : t.enabled = t.checked) :
    ((user_set_checked s b).param = (if b then some s.control.displayed else none))
  ∧ ((user_set_checked s b).control.checked = b)
  ∧ ((edit_value s v).param = some v ∧ (edit_value s v).control.displayed = v)
  ∧ ((opt_update_from_params s pv).control.checked = pv.isSome)
  ∧ (∀ x, pv = some x →
      (opt_update_from_params s pv).control.displayed = x
      ∧ (opt_update_from_params s pv).param = some x)
  ∧ (pv = none → s.control.checked = true → (opt_update_from_params s pv).param = none)
  ∧ (t.checked = true → (enable_box_set_checked t false).param = none)
  ∧ (t.checked = false →
      (enable_box_set_checked t true).param = some t.displayed)
  ∧ ((spin_edit_value t v).param = some v)
  ∧ (t.checked = true →
      (spin_update_value t none).checked = false
      ∧ (spin_update_value t none).param = none)
  ∧ ((spin_update_value t (some v)).displayed = v)
  ∧ ((spin_update_value t (some v)).checked = t.checked) := by
  obtain ⟨⟨sc, se, sd⟩, sp⟩ := s
  obtain ⟨tc, te, td, tp⟩ := t
  simp only at ht
  subst ht
  rcases eq_or_ne td v with hv | hv <;>
    cases pv <;> cases sc <;> cases b <;> cases te <;>
    simp_all [user_set_checked, toggle_enable, edit_value, opt_update_from_params,
      enable_box_set_checked, spin_set_enabled, spin_edit_value, spin_update_value]

/-- C4 witness: a checked, enabled optional row with value 2; the
user unchecking it sets the parameter to None, and a spinbox update
with the value 7 never changes the enable box. -/
theorem C4_bindings_witness :
    (user_set_checked ⟨⟨true, true, 2⟩, some 2⟩ false).param =
      (if false then some (OptParamControl.mk true true 2).displayed else none)
  ∧ (spin_update_value ⟨true, true, 2, some 2⟩ (some 7)).checked =
      SpinBinding.checked ⟨true, true, 2, some 2⟩ :=
  ⟨(C4_bindings ⟨⟨true, true, 2⟩, some 2⟩ ⟨true, true, 2, some 2⟩ false 7 none rfl).1,
   (C4_bindings ⟨⟨true, true, 2⟩, some 2⟩ ⟨true, true, 2, some 2⟩ false 7 none
      rfl).2.2.2.2.2.2.2.2.2.2.2⟩

end MotilePlugin
